import Mathlib

/-!
Shallow embedding of the lm-score repository (src/src/lm_score/lm_score.py,
src/analysis/viz.py, src/tests/benchmark_lm_score.py) and proofs about it.

The inference client (a remote language model reached over HTTP) is the one
external collaborator: it is modelled as an oracle `Nat → Except String Int`
giving, for the i-th predictor call of an operation, either the parsed integer
answer (`.ok a`, dspy signature `question -> answer: int`) or a raised
exception with its message (`.error e`, covering both transport and parse
failures, which surface identically as Python exceptions from the predictor).
Everything else is translated directly from the source.
-/

namespace LmScore

/-- A SQLite value handed to the UDF: NULL, an integer, or text.  (REAL and
BLOB arguments play no role in the claims; these three constructors cover
every input the claims quantify over.) -/
inductive Value where
  | null : Value
  | intv : Int → Value
  | text : String → Value
  deriving DecidableEq, Repr

/-- Python `str(part)` on a SQLite value (also f-string interpolation). -/
def pyStr : Value → String
  | Value.null => "None"
  | Value.intv n => toString n
  | Value.text s => s

/-- `part is not None` test used by the generator expressions in both
`lm_score` and `evaluate_single_item`. -/
def isNull : Value → Bool
  | Value.null => true
  | _ => false

/-- The behaviour of the inference client during one operation: the i-th
predictor call either returns a parsed integer answer or raises. -/
def Oracle : Type := Nat → Except String Int

/-- The f-string prompt template of `lm_score` (lm_score.py lines 144-155);
`evaluate_single_item` in tests/benchmark_lm_score.py lines 85-97 builds the
textually identical template around its own combined content. -/
def scorePrompt (question content : String) : String :=
  "Based on the following content, answer this yes/no question: " ++ question ++
  "\n\nContent: " ++ content ++
  "\n\nProvide a score from 0 to 10 based on your confidence in the answer:" ++
  "\n- 10 = strongly yes, definitely true" ++
  "\n- 7-9 = probably yes, likely true" ++
  "\n- 5-6 = uncertain, could go either way" ++
  "\n- 3-4 = probably no, likely false" ++
  "\n- 0-2 = strongly no, definitely false" ++
  "\n\nProvide only a single number from 0 to 10.\nScore:"

/-- `" ".join(str(part) for part in content_parts if part is not None)`
from `lm_score` (lm_score.py line 141). -/
def udfContent (parts : List Value) : String :=
  String.intercalate " " ((parts.filter (fun p => !(isNull p))).map pyStr)

/-- `"\n".join(str(part) for part in content_parts if part is not None)`
from `evaluate_single_item` (tests/benchmark_lm_score.py line 82). -/
def benchmarkContent (parts : List Value) : String :=
  String.intercalate "\n" ((parts.filter (fun p => !(isNull p))).map pyStr)

/-- The full prompt `evaluate_single_item` sends to `lm_scorer`. -/
def benchmarkPrompt (parts : List Value) (question : String) : String :=
  scorePrompt question (benchmarkContent parts)

/-- The full prompt `lm_score` sends to `lm_scorer` once the argument-count
check has passed: last argument is the question, the rest is content. -/
def udfPrompt (parts : List Value) (question : String) : String :=
  scorePrompt question (udfContent parts)

instance (α β : Type) [DecidableEq α] [DecidableEq β] :
    DecidableEq (Except α β) := fun a b =>
  match a, b with
  | Except.ok x, Except.ok y => decidable_of_iff (x = y) (by simp)
  | Except.error x, Except.error y => decidable_of_iff (x = y) (by simp)
  | Except.ok _, Except.error _ => isFalse (by simp)
  | Except.error _, Except.ok _ => isFalse (by simp)

/-- Observable outcome of one `lm_score` call: the returned value or raised
exception, the prompts sent to the inference client (in order), and the
warning lines printed. -/
structure UdfOutcome where
  result : Except String Int
  calls : List String
  warnings : List String
  deriving DecidableEq, Repr

/-- `LMScorer.forward`: a single predictor call, errors propagate
(lm_score.py lines 43-53).  The module-level scorer used by `lm_score` is
`lm_scorer = LMScorer()` (line 107). -/
def LMScorer.forward (oracle : Oracle) : Except String Int :=
  oracle 0

/-- The per-call score list built by `EnsembleScorer.forward`
(lm_score.py lines 96-103): the i-th slot is the i-th predictor call's
answer, or the neutral default 5 if that call raised. -/
def ensembleScores (k : Nat) (oracle : Oracle) : List Int :=
  (List.range k).map (fun i =>
    match oracle i with
    | Except.ok a => a
    | Except.error _ => 5)

/-- `EnsembleScorer.forward` (lm_score.py lines 84-104): k predictor calls,
failures replaced by 5, answer `sum(scores) // self.k` (Python floor
division, hence `Int.fdiv`).  The commented-out mode line is dead code. -/
def EnsembleScorer.forward (k : Nat) (oracle : Oracle) : Int :=
  Int.fdiv (ensembleScores k oracle).sum k

/-- The TypeError message raised by `lm_score` on fewer than 2 arguments
(lm_score.py lines 133-134). -/
def argCountMsg : String :=
  "lm_score() requires at least 2 arguments: content and question"

/-- `lm_score(*args)` (lm_score.py lines 109-162): raises TypeError below 2
arguments before any client contact; otherwise builds the prompt from the
space-joined non-null content and the last argument as question, delegates
to the module-level `lm_scorer` (an `LMScorer`), returns its answer, and on
any exception from that call prints a warning and returns 5. -/
def lm_score (oracle : Oracle) (args : List Value) : UdfOutcome :=
  if args.length < 2 then
    { result := Except.error argCountMsg, calls := [], warnings := [] }
  else
    let question := pyStr ((args.getLast?).getD Value.null)
    let prompt := udfPrompt args.dropLast question
    match LMScorer.forward oracle with
    | Except.ok a =>
        { result := Except.ok a, calls := [prompt], warnings := [] }
    | Except.error e =>
        { result := Except.ok 5, calls := [prompt],
          warnings := ["Warning: " ++ e] }

/-- `calculate_stats` (analysis/viz.py lines 8-29), which returns the mean
and the 95% confidence-interval half-width.  The sample standard error
`np.std(values, ddof=1) / np.sqrt(n)` involves a floating-point square
root; it enters the result only as a single multiplicand, so it is taken
here as an input `std_err`.  The branch structure and the multipliers are
translated exactly: half-width 0 when `n <= 1`, multiplier 1.96 when
`n > 30`, multiplier 2.0 otherwise. -/
def calculate_stats (values : List ℚ) (std_err : ℚ) : ℚ × ℚ :=
  let n := values.length
  let mean := values.sum / (n : ℚ)
  if n > 1 then
    let t_value : ℚ := if n > 30 then 196 / 100 else 2
    (mean, t_value * std_err)
  else
    (mean, 0)

/-- Python substring containment `pattern in text`, on character lists. -/
def containsSub (pattern : List Char) : List Char → Bool
  | [] => pattern.isEmpty
  | t :: ts => List.isPrefixOf pattern (t :: ts) || containsSub pattern ts

/-- Python `str.lower()` (ASCII range; the substrings compared against are
ASCII). -/
def lowercase (s : List Char) : List Char :=
  s.map Char.toLower

/-- The judge-verdict classification used identically in
`load_and_analyze_results` (analysis/viz.py lines 56-62) and
`create_per_problem_visualization` (lines 270-273):
`judgment = ... .lower()`, then count 1 exactly when
`'reasonable' in judgment and 'unreasonable' not in judgment`. -/
def judgeReasonable (verdict : List Char) : Bool :=
  let judgment := lowercase verdict
  containsSub ("reasonable".toList) judgment &&
    !(containsSub ("unreasonable".toList) judgment)

/-- Whether an `Except` outcome is a normal return (no exception). -/
def isOk : Except String Int → Bool
  | Except.ok _ => true
  | Except.error _ => false

/-- An inference client whose calls all fail with a transport error. -/
def oracleFail : Oracle := fun _ => Except.error "connection refused"

/-- An inference client answering 2, 5, 9 on its first three calls. -/
def oracle259 : Oracle := fun i =>
  if i = 0 then Except.ok 2 else if i = 1 then Except.ok 5 else Except.ok 9

/-- An inference client answering 10 on every call. -/
def oracleTens : Oracle := fun _ => Except.ok 10

/-- An inference client answering the out-of-range integer 11. -/
def oracleEleven : Oracle := fun _ => Except.ok 11

/-- Once the argument-count check passes, `lm_score` makes exactly one
predictor call with the built prompt and returns its answer, or 5 with a
warning if that call raised. -/
theorem lm_score_of_two_le (oracle : Oracle) (args : List Value)
    (h2 : 2 ≤ args.length) :
    lm_score oracle args =
      match oracle 0 with
      | Except.ok a =>
          { result := Except.ok a,
            calls := [udfPrompt args.dropLast
              (pyStr ((args.getLast?).getD Value.null))],
            warnings := [] }
      | Except.error e =>
          { result := Except.ok 5,
            calls := [udfPrompt args.dropLast
              (pyStr ((args.getLast?).getD Value.null))],
            warnings := ["Warning: " ++ e] } := by
  unfold lm_score LMScorer.forward
  rw [if_neg (by omega)]

/-- C1 counterexample: the claim that every `lm_score` return value lies in
[0,10] is false — with a scorer whose parsed answer is 11 (the dspy signature
`question -> answer: int` accepts any integer and `lm_score` returns
`response.answer` without clamping), `lm_score("a", "q")` returns 11. -/
theorem C1_counterexample :
    (lm_score oracleEleven [Value.text "a", Value.text "q"]).result = Except.ok 11
    ∧ ¬ ((11 : Int) ≤ 10) := by
  exact ⟨by decide, by decide⟩

/-- C1 (amended): for every call of `lm_score` with at least two arguments,
the returned value is the scorer's parsed integer answer when the scorer call
succeeds — hence it lies in [0,10] exactly when that answer does, `lm_score`
itself never clamps — and when the scorer call fails the returned value is
exactly 5. -/
theorem C1_theorem (oracle : Oracle) (args : List Value)
    (h2 : 2 ≤ args.length) :
    (∀ e, oracle 0 = Except.error e →
        (lm_score oracle args).result = Except.ok 5)
    ∧ (∀ a, oracle 0 = Except.ok a →
        (lm_score oracle args).result = Except.ok a)
    ∧ (∀ a, oracle 0 = Except.ok a → 0 ≤ a → a ≤ 10 →
        (lm_score oracle args).result = Except.ok a ∧ 0 ≤ a ∧ a ≤ 10) := by
  refine ⟨fun e he => ?_, fun a ha => ?_, fun a ha h0 h10 => ?_⟩
  · rw [lm_score_of_two_le oracle args h2, he]
  · rw [lm_score_of_two_le oracle args h2, ha]
  · exact ⟨by rw [lm_score_of_two_le oracle args h2, ha], h0, h10⟩

/-- C1 witness: on a failing client `lm_score("a", "q")` returns exactly 5,
and on a client answering 10 it returns 10. -/
theorem C1_witness :
    (lm_score oracleFail [Value.text "a", Value.text "q"]).result = Except.ok 5
    ∧ (lm_score oracleTens [Value.text "a", Value.text "q"]).result
        = Except.ok 10 :=
  ⟨(C1_theorem oracleFail [Value.text "a", Value.text "q"] (by decide)).1
      "connection refused" rfl,
   (C1_theorem oracleTens [Value.text "a", Value.text "q"] (by decide)).2.1
      10 rfl⟩

/-- C2: for every call of `lm_score` with at least two arguments, the call
returns normally (no exception propagates past the argument-count check), and
if the single inference call fails — transport error or unparsable reply,
both raised by the predictor — then the returned value is 5 and exactly one
warning line `Warning: <message>` is emitted. -/
theorem C2_theorem (oracle : Oracle) (args : List Value)
    (h2 : 2 ≤ args.length) :
    isOk (lm_score oracle args).result = true
    ∧ (∀ e, oracle 0 = Except.error e →
        (lm_score oracle args).result = Except.ok 5
        ∧ (lm_score oracle args).warnings = ["Warning: " ++ e]) := by
  rw [lm_score_of_two_le oracle args h2]
  cases ho : oracle 0 with
  | error e => simp [isOk]
  | ok a => simp [isOk]

/-- C2 witness: with an unreachable inference client, `lm_score("a", "q")`
returns normally with value 5 and emits the warning line. -/
theorem C2_witness :
    isOk (lm_score oracleFail [Value.text "a", Value.text "q"]).result = true
    ∧ (lm_score oracleFail [Value.text "a", Value.text "q"]).result
        = Except.ok 5
    ∧ (lm_score oracleFail [Value.text "a", Value.text "q"]).warnings
        = ["Warning: " ++ "connection refused"] :=
  ⟨(C2_theorem oracleFail [Value.text "a", Value.text "q"] (by decide)).1,
   ((C2_theorem oracleFail [Value.text "a", Value.text "q"] (by decide)).2
      "connection refused" rfl).1,
   ((C2_theorem oracleFail [Value.text "a", Value.text "q"] (by decide)).2
      "connection refused" rfl).2⟩

/-- C3: the claim (and the source's own comment "Use ensemble scorer with 3
parallel predictions", lm_score.py line 106) says the default path is the
k=3 ensemble average branch, but line 107 binds `lm_scorer = LMScorer()`:
`lm_score` makes exactly one model call and returns that call's answer.  On
a client answering 2, 5, 9 on successive calls, `lm_score("a", "q?")`
returns 2 after a single call, whereas the ensemble branch would return
`(2+5+9) // 3 = 5`. -/
theorem C3_theorem :
    (lm_score oracle259 [Value.text "a", Value.text "q?"]).result
      = Except.ok 2
    ∧ (lm_score oracle259 [Value.text "a", Value.text "q?"]).calls.length = 1
    ∧ EnsembleScorer.forward 3 oracle259 = 5
    ∧ (2 : Int) ≠ 5 := by
  exact ⟨by decide, by decide, by decide, by decide⟩

/-- C4: for every k ≥ 1, `EnsembleScorer.forward` returns the floor of the
sum of its k per-call scores divided by k (Python integer floor division),
the per-call score list has exactly k entries; with k=3, per-call scores
[10,10,10] yield 10 and [2,5,9] yield 5. -/
theorem C4_theorem (k : Nat) (oracle : Oracle) (_hk : 1 ≤ k) :
    EnsembleScorer.forward k oracle = Int.fdiv (ensembleScores k oracle).sum k
    ∧ (ensembleScores k oracle).length = k
    ∧ EnsembleScorer.forward 3 oracleTens = 10
    ∧ EnsembleScorer.forward 3 oracle259 = 5 := by
  exact ⟨rfl, by simp [ensembleScores], by decide, by decide⟩

/-- C4 witness: instantiation at k = 3 with per-call scores 2, 5, 9. -/
theorem C4_witness :
    EnsembleScorer.forward 3 oracle259
        = Int.fdiv (ensembleScores 3 oracle259).sum 3
    ∧ (ensembleScores 3 oracle259).length = 3
    ∧ EnsembleScorer.forward 3 oracleTens = 10
    ∧ EnsembleScorer.forward 3 oracle259 = 5 :=
  C4_theorem 3 oracle259 (by decide)

/-- C5: `lm_score` called with fewer than 2 arguments raises the TypeError
"lm_score() requires at least 2 arguments: content and question" without
sending anything to the inference client, and a call with 2 or more
arguments never raises (in particular not that error). -/
theorem C5_theorem (oracle : Oracle) (args : List Value) :
    (args.length < 2 →
      (lm_score oracle args).result = Except.error argCountMsg
      ∧ (lm_score oracle args).calls = [])
    ∧ (2 ≤ args.length → ∀ e,
        (lm_score oracle args).result ≠ Except.error e) := by
  constructor
  · intro h
    unfold lm_score
    rw [if_pos h]
    exact ⟨rfl, rfl⟩
  · intro h2 e
    rw [lm_score_of_two_le oracle args h2]
    cases ho : oracle 0 <;> simp

/-- C5 witness: `lm_score("x")` and `lm_score()` both raise the TypeError
with no client contact. -/
theorem C5_witness :
    ((lm_score oracleFail [Value.text "x"]).result = Except.error argCountMsg
      ∧ (lm_score oracleFail [Value.text "x"]).calls = [])
    ∧ ((lm_score oracleFail []).result = Except.error argCountMsg
      ∧ (lm_score oracleFail []).calls = []) :=
  ⟨(C5_theorem oracleFail [Value.text "x"]).1 (by decide),
   (C5_theorem oracleFail []).1 (by decide)⟩

/-- C6: for every call of `lm_score` with at least two arguments, the one
prompt sent to the scorer embeds, as its content, exactly the string obtained
by dropping the null arguments among all-but-last, stringifying the rest and
joining them with single spaces, with the last argument as question; null
fragments never make the call fail. -/
theorem C6_theorem (oracle : Oracle) (args : List Value)
    (h2 : 2 ≤ args.length) :
    (lm_score oracle args).calls =
      [scorePrompt (pyStr ((args.getLast?).getD Value.null))
        (String.intercalate " "
          (((args.dropLast).filter (fun p => !(isNull p))).map pyStr))]
    ∧ isOk (lm_score oracle args).result = true := by
  rw [lm_score_of_two_le oracle args h2]
  cases ho : oracle 0 <;> exact ⟨rfl, rfl⟩

/-- C6 witness: `lm_score("a", NULL, 3, "q")` sends one prompt whose content
is "a 3" (the null dropped, 3 stringified, space-joined) and succeeds. -/
theorem C6_witness :
    (lm_score oracleFail
        [Value.text "a", Value.null, Value.intv 3, Value.text "q"]).calls =
      [scorePrompt
        (pyStr ((([Value.text "a", Value.null, Value.intv 3,
            Value.text "q"]).getLast?).getD Value.null))
        (String.intercalate " "
          ((([Value.text "a", Value.null, Value.intv 3,
              Value.text "q"].dropLast).filter
            (fun p => !(isNull p))).map pyStr))]
    ∧ isOk (lm_score oracleFail
        [Value.text "a", Value.null, Value.intv 3, Value.text "q"]).result
        = true :=
  C6_theorem oracleFail
    [Value.text "a", Value.null, Value.intv 3, Value.text "q"] (by decide)

/-- C7: in `EnsembleScorer.forward` with k ≥ 1 calls, every call that raises
contributes exactly 5 to its slot of the score list (successful calls keep
their own answer in their slot), and when all k calls fail the returned
answer is 5; `forward` is a total function — it never raises. -/
theorem C7_theorem (k : Nat) (oracle : Oracle) (hk : 1 ≤ k) :
    (∀ i, i < k → ∀ e, oracle i = Except.error e →
        (ensembleScores k oracle)[i]? = some 5)
    ∧ (∀ i, i < k → ∀ a, oracle i = Except.ok a →
        (ensembleScores k oracle)[i]? = some a)
    ∧ ((∀ i, i < k → ∃ e, oracle i = Except.error e) →
        EnsembleScorer.forward k oracle = 5) := by
  refine ⟨fun i hi e he => ?_, fun i hi a ha => ?_, fun hall => ?_⟩
  · simp [ensembleScores, List.getElem?_map, List.getElem?_range hi, he]
  · simp [ensembleScores, List.getElem?_map, List.getElem?_range hi, ha]
  · have hrep : ensembleScores k oracle = List.replicate k 5 := by
      refine List.eq_replicate_iff.mpr ⟨by simp [ensembleScores], ?_⟩
      intro b hb
      simp only [ensembleScores, List.mem_map, List.mem_range] at hb
      obtain ⟨i, hi, hfi⟩ := hb
      obtain ⟨e, he⟩ := hall i hi
      rw [he] at hfi
      exact hfi.symm
    unfold EnsembleScorer.forward
    rw [hrep, List.sum_replicate, nsmul_eq_mul]
    exact Int.mul_fdiv_cancel_left 5
      (by exact_mod_cast Nat.pos_of_ne_zero (by omega) |>.ne')

/-- C7 witness: with k = 2 and every call failing, slot 0 holds 5 and the
ensemble answer is 5. -/
theorem C7_witness :
    (ensembleScores 2 oracleFail)[0]? = some 5
    ∧ EnsembleScorer.forward 2 oracleFail = 5 :=
  ⟨(C7_theorem 2 oracleFail (by decide)).1 0 (by decide)
      "connection refused" rfl,
   (C7_theorem 2 oracleFail (by decide)).2.2
      (fun i _ => ⟨"connection refused", rfl⟩)⟩

/-- C8: for every non-empty sample list, the confidence-interval half-width
returned by `calculate_stats` is 0 for a single sample, `1.96 * std_err`
for more than 30 samples, and `2.0 * std_err` for 2 to 30 samples. -/
theorem C8_theorem (values : List ℚ) (std_err : ℚ) (_hne : values ≠ []) :
    (values.length = 1 → (calculate_stats values std_err).2 = 0)
    ∧ (30 < values.length →
        (calculate_stats values std_err).2 = 196 / 100 * std_err)
    ∧ (2 ≤ values.length → values.length ≤ 30 →
        (calculate_stats values std_err).2 = 2 * std_err) := by
  refine ⟨fun h1 => ?_, fun h30 => ?_, fun h2 h30 => ?_⟩
  · simp only [calculate_stats]
    rw [if_neg (by omega)]
  · simp only [calculate_stats]
    rw [if_pos (by omega), if_pos (by omega)]
  · simp only [calculate_stats]
    rw [if_pos (by omega), if_neg (by omega)]

/-- C8 witness: synthetic samples of sizes 1, 31 and 10 give half-widths
0, 1.96 * std_err and 2 * std_err respectively. -/
theorem C8_witness :
    (calculate_stats [3] 7).2 = 0
    ∧ (calculate_stats (List.replicate 31 1) 7).2 = 196 / 100 * 7
    ∧ (calculate_stats (List.replicate 10 1) 7).2 = 2 * 7 :=
  ⟨(C8_theorem [3] 7 (by simp)).1 rfl,
   (C8_theorem (List.replicate 31 1) 7 (by simp)).2.1 (by simp),
   (C8_theorem (List.replicate 10 1) 7 (by simp)).2.2 (by simp) (by simp)⟩

/-- C9 counterexample: the verdict "REASONABLE" is counted as reasonable by
the report stage (which lowercases first), although the substring
"reasonable" does not appear in the verdict itself — so "counts 1 exactly
when 'reasonable' appears in it" is false as stated. -/
theorem C9_counterexample :
    judgeReasonable ("REASONABLE".toList) = true
    ∧ containsSub ("reasonable".toList) ("REASONABLE".toList) = false := by
  exact ⟨by decide, by decide⟩

/-- C9 (amended): for every free-text judge verdict, the report stage counts
it as reasonable (1) exactly when "reasonable" appears in the lowercased
verdict and "unreasonable" does not — i.e. the substring tests are applied
case-insensitively, to `verdict.lower()`. -/
theorem C9_theorem (verdict : List Char) :
    judgeReasonable verdict = true ↔
      (containsSub ("reasonable".toList) (lowercase verdict) = true
       ∧ containsSub ("unreasonable".toList) (lowercase verdict) = false) := by
  simp [judgeReasonable, Bool.and_eq_true, Bool.not_eq_true']

/-- C10: the benchmark driver joins non-null content parts with newlines
while `lm_score` joins them with single spaces, around the same template:
whenever at most one non-null part remains the two prompts coincide, and
there is a two-part content list (["a","b"], both non-null) on which the
prompts differ. -/
theorem C10_theorem (parts : List Value) (question : String) :
    ((parts.filter (fun p => !(isNull p))).length ≤ 1 →
      benchmarkPrompt parts question = udfPrompt parts question)
    ∧ benchmarkPrompt [Value.text "a", Value.text "b"] "q"
        ≠ udfPrompt [Value.text "a", Value.text "b"] "q"
    ∧ 2 ≤ (([Value.text "a", Value.text "b"] :
        List Value).filter (fun p => !(isNull p))).length := by
  refine ⟨fun h => ?_, by decide, by decide⟩
  have hlen : ((parts.filter (fun p => !(isNull p))).map pyStr).length ≤ 1 := by
    simpa using h
  have key : String.intercalate "\n"
        ((parts.filter (fun p => !(isNull p))).map pyStr)
      = String.intercalate " "
        ((parts.filter (fun p => !(isNull p))).map pyStr) := by
    cases hL : (parts.filter (fun p => !(isNull p))).map pyStr with
    | nil => rfl
    | cons x xs =>
        cases xs with
        | nil => rfl
        | cons y ys =>
            rw [hL] at hlen
            simp at hlen
  unfold benchmarkPrompt udfPrompt benchmarkContent udfContent
  rw [key]

/-- C10 witness: with content [NULL, "a"] (one non-null part) and question
"q", the benchmark driver and the UDF build the identical prompt. -/
theorem C10_witness :
    benchmarkPrompt [Value.null, Value.text "a"] "q"
      = udfPrompt [Value.null, Value.text "a"] "q" :=
  (C10_theorem [Value.null, Value.text "a"] "q").1 (by decide)

end LmScore
